import Mathlib

/-!
Shallow embedding of the justpros connection/trust graph and visibility code.

The definitions below are translated from `src/app/routers/connections.py`,
`src/app/routers/posts.py` and `src/app/routers/facts.py`.  Database tables
become lists of rows, `NOW()` becomes an explicit `now : Int` (epoch seconds),
SQL `REAL` columns become `ℚ` (except the power score, which uses `ℝ` because
of `EXP`), and each HTTP handler becomes a function from the database state to
`Except ApiError` of the new state.
-/

namespace JustPros

/-- Error taxonomy: HTTP status codes raised by the handlers. -/
inductive ApiError
  | notFound
  | forbidden
  | badRequest
  | rateLimited
deriving DecidableEq

/-- The `status` column of the `connections` table. -/
inductive ConnStatus
  | pending
  | confirmed
  | ignored
deriving DecidableEq

/-- A row of the `users` table (the columns the connections code touches). -/
structure UserRow where
  id : Nat
  handle : String
  karma_points : Int
  karma_last_regen : Int
  trustworthiness : ℚ
deriving DecidableEq

/-- A row of the `connections` table. -/
structure ConnRow where
  id : Nat
  from_user_id : Nat
  to_user_id : Nat
  subject : String
  body : Option String
  conn_status : ConnStatus
  created_at : Int
  confirmed_at : Option Int
  ignored_at : Option Int
deriving DecidableEq

/-- A row of the `connection_claims_log` table. -/
structure ClaimLogRow where
  from_user_id : Nat
  to_user_id : Nat
  created_at : Int
deriving DecidableEq

/-- A row of the `connection_votes` table. -/
structure VoteRow where
  connection_id : Nat
  voter_id : Nat
  vote : Int
deriving DecidableEq

/-- The database state seen by the connections router. -/
structure Db where
  users : List UserRow
  connections : List ConnRow
  claims_log : List ClaimLogRow
  votes : List VoteRow
  next_conn_id : Nat
deriving DecidableEq

/-- `SELECT ... FROM users WHERE id = :id`. -/
def findUser (db : Db) (userId : Nat) : Option UserRow :=
  db.users.find? (fun u => u.id == userId)

/-- Python's `str.lower()` on the handle, character by character (handles in
this code are ASCII). -/
def lowerHandle (s : String) : String :=
  ⟨s.data.map Char.toLower⟩

/-- `SELECT id FROM users WHERE handle = :handle` with `handle.lower()`. -/
def findUserByHandle (db : Db) (handle : String) : Option UserRow :=
  db.users.find? (fun u => u.handle == lowerHandle handle)

/-- `UPDATE users SET ... WHERE id = :id`. -/
def updateUser (db : Db) (userId : Nat) (f : UserRow → UserRow) : Db :=
  { db with users := db.users.map (fun u => if u.id = userId then f u else u) }

/-- The `users.trustworthiness` of a given user, if the user exists. -/
def trustOf (db : Db) (userId : Nat) : Option ℚ :=
  (findUser db userId).map (fun u => u.trustworthiness)

/-- Seconds in `INTERVAL '1 day'`. -/
def daySeconds : Int := 86400

/-- Seconds in 30 days, the literal `2592000` of the karma regeneration SQL. -/
def monthSeconds : Int := 2592000

/-- `COUNT(*) FROM connection_claims_log WHERE from_user_id = :from_id AND
to_user_id = :to_id AND created_at > NOW() - INTERVAL '1 day'`. -/
def pairClaimCount (db : Db) (now : Int) (fromId toId : Nat) : Nat :=
  (db.claims_log.filter (fun r =>
    r.from_user_id == fromId && r.to_user_id == toId &&
      decide (now - daySeconds < r.created_at))).length

/-- `COUNT(*) FROM connection_claims_log WHERE from_user_id = :from_id AND
created_at > NOW() - INTERVAL '1 day'`. -/
def globalClaimCount (db : Db) (now : Int) (fromId : Nat) : Nat :=
  (db.claims_log.filter (fun r =>
    r.from_user_id == fromId && decide (now - daySeconds < r.created_at))).length

/-- `_check_rate_limits`: per-pair limit (3/day) then global limit (100/day). -/
def check_rate_limits (db : Db) (now : Int) (fromId toId : Nat) :
    Except ApiError Unit :=
  if 3 ≤ pairClaimCount db now fromId toId then .error .rateLimited
  else if 100 ≤ globalClaimCount db now fromId then .error .rateLimited
  else .ok ()

/-- `_log_claim_attempt`: `INSERT INTO connection_claims_log`. -/
def log_claim_attempt (db : Db) (now : Int) (fromId toId : Nat) : Db :=
  { db with claims_log := db.claims_log ++ [⟨fromId, toId, now⟩] }

/-- The karma regeneration `UPDATE` inside `_check_karma`, applied to one user
row: when `karma_last_regen < NOW() - INTERVAL '30 days'`, set
`karma_points = LEAST(15, karma_points + FLOOR((NOW() - karma_last_regen)/2592000))`
and stamp `karma_last_regen = NOW()`. -/
def regenerateKarma (now : Int) (u : UserRow) : UserRow :=
  if u.karma_last_regen < now - monthSeconds then
    { u with
      karma_points := min 15 (u.karma_points + (now - u.karma_last_regen).fdiv monthSeconds),
      karma_last_regen := now }
  else u

/-- `_check_karma`: fetch the user (404 if missing), run the lazy karma
regeneration update, re-fetch, and reject with 403 when `karma_points <= 0`. -/
def check_karma (db : Db) (now : Int) (userId : Nat) : Except ApiError Db :=
  match findUser db userId with
  | none => .error .notFound
  | some _ =>
    let db1 := updateUser db userId (regenerateKarma now)
    match findUser db1 userId with
    | some u => if u.karma_points ≤ 0 then .error .forbidden else .ok db1
    | none => .ok db1

/-- `create_connection` (`POST /api/connections`): karma check, target handle
resolution, self-connection check, rate limits, claim log insert, and finally
an unconditional `INSERT INTO connections` returning the new row id. -/
def create_connection (db : Db) (now : Int) (fromUserId : Nat)
    (toHandle subject : String) (body : Option String) :
    Except ApiError (Db × Nat) :=
  match check_karma db now fromUserId with
  | .error e => .error e
  | .ok db1 =>
    match findUserByHandle db1 toHandle with
    | none => .error .notFound
    | some target =>
      if fromUserId = target.id then .error .badRequest
      else
        match check_rate_limits db1 now fromUserId target.id with
        | .error e => .error e
        | .ok _ =>
          let db2 := log_claim_attempt db1 now fromUserId target.id
          let row : ConnRow :=
            { id := db2.next_conn_id
              from_user_id := fromUserId
              to_user_id := target.id
              subject := subject
              body := body
              conn_status := .pending
              created_at := now
              confirmed_at := none
              ignored_at := none }
          .ok ({ db2 with
                  connections := db2.connections ++ [row]
                  next_conn_id := db2.next_conn_id + 1 }, row.id)

/-- `SELECT ... FROM connections WHERE id = :id`. -/
def findConn (db : Db) (connId : Nat) : Option ConnRow :=
  db.connections.find? (fun c => c.id == connId)

/-- The `UPDATE connections SET status = 'confirmed', confirmed_at = NOW(),
ignored_at = NULL` row transform of `confirm_connection`. -/
def confirmUpdate (now : Int) (r : ConnRow) : ConnRow :=
  { r with conn_status := .confirmed, confirmed_at := some now, ignored_at := none }

/-- `confirm_connection` (`POST /api/connections/{id}/confirm`): 404 when the
row is missing, 403 unless the caller is the row's target, 400 when already
confirmed, otherwise set `status = 'confirmed'`, stamp `confirmed_at` and
clear `ignored_at`. -/
def confirm_connection (db : Db) (now : Int) (userId connId : Nat) :
    Except ApiError Db :=
  match findConn db connId with
  | none => .error .notFound
  | some c =>
    if c.to_user_id ≠ userId then .error .forbidden
    else if c.conn_status = .confirmed then .error .badRequest
    else .ok { db with connections := db.connections.map (fun r =>
        if r.id = connId then confirmUpdate now r else r) }

/-- The `DELETE FROM connection_claims_log WHERE id = (SELECT id ... ORDER BY
created_at DESC LIMIT 1)` step of `delete_connection`: remove one matching log
row with the greatest `created_at`. -/
def removeLatestClaimLog (log : List ClaimLogRow) (fromId toId : Nat) :
    List ClaimLogRow :=
  match ((log.filter (fun r => r.from_user_id == fromId && r.to_user_id == toId)).map
      (fun r => r.created_at)).max? with
  | none => log
  | some m =>
    log.eraseP (fun r =>
      r.from_user_id == fromId && r.to_user_id == toId && r.created_at == m)

/-- `delete_connection` (`DELETE /api/connections/{id}`): 404 when the row is
missing, 403 unless the caller is the row's creator (`from_user_id`), else
delete the row and remove the latest matching rate-limit log entry. -/
def delete_connection (db : Db) (userId connId : Nat) : Except ApiError Db :=
  match findConn db connId with
  | none => .error .notFound
  | some c =>
    if c.from_user_id ≠ userId then .error .forbidden
    else .ok { db with
      connections := db.connections.filter (fun r => r.id != connId)
      claims_log := removeLatestClaimLog db.claims_log userId c.to_user_id }

/-- SQL `LEAST` on two rationals. -/
def ratLeast (a b : ℚ) : ℚ :=
  if a ≤ b then a else b

/-- SQL `GREATEST` on two rationals. -/
def ratGreatest (a b : ℚ) : ℚ :=
  if a ≤ b then b else a

/-- `LEAST(2.0, GREATEST(0.1, x))`, the clamp used by the trustworthiness
updates of `vote_on_connection` and `remove_vote`. -/
def clampTrust (x : ℚ) : ℚ :=
  ratLeast 2 (ratGreatest (1/10) x)

/-- `_can_vote_on_connection`'s two `EXISTS` subqueries: the voter has a
confirmed connection row, in either direction, with the given user. -/
def hasConfirmedWith (db : Db) (a b : Nat) : Bool :=
  db.connections.any (fun r =>
    decide (r.conn_status = .confirmed) &&
      ((r.from_user_id == a && r.to_user_id == b) ||
       (r.from_user_id == b && r.to_user_id == a)))

/-- `_can_vote_on_connection`: voter is confirmed-connected to both parties. -/
def can_vote_on_connection (db : Db) (voterId fromUserId toUserId : Nat) : Bool :=
  hasConfirmedWith db voterId fromUserId && hasConfirmedWith db voterId toUserId

/-- `INSERT INTO connection_votes ... ON CONFLICT (connection_id, voter_id)
DO UPDATE SET vote = :vote`. -/
def upsertVote (votes : List VoteRow) (connId voterId : Nat) (v : Int) :
    List VoteRow :=
  if votes.any (fun r => r.connection_id == connId && r.voter_id == voterId) then
    votes.map (fun r =>
      if r.connection_id == connId && r.voter_id == voterId then
        { r with vote := v }
      else r)
  else votes ++ [⟨connId, voterId, v⟩]

/-- `vote_on_connection` (`POST /api/connections/{id}/vote`): 404 when the row
is missing, 400 unless confirmed, 403 for a party of the connection or a voter
without confirmed connections to both parties; then upsert the vote row and
unconditionally apply the clamped `0.01 * vote` delta to the claimant
(`from_user_id`). -/
def vote_on_connection (db : Db) (voterId connId : Nat) (v : Int) :
    Except ApiError Db :=
  match findConn db connId with
  | none => .error .notFound
  | some c =>
    if c.conn_status ≠ .confirmed then .error .badRequest
    else if voterId = c.from_user_id ∨ voterId = c.to_user_id then
      .error .forbidden
    else if ¬ can_vote_on_connection db voterId c.from_user_id c.to_user_id then
      .error .forbidden
    else
      let db1 := { db with votes := upsertVote db.votes connId voterId v }
      .ok (updateUser db1 c.from_user_id (fun u =>
        { u with trustworthiness := clampTrust (u.trustworthiness + (1/100) * v) }))

/-- `remove_vote` (`DELETE /api/connections/{id}/vote`): 404 when the caller
has no vote row; otherwise reverse the clamped trust delta on the claimant
(when the connection still exists) and delete the vote row. -/
def remove_vote (db : Db) (voterId connId : Nat) : Except ApiError Db :=
  match db.votes.find? (fun r => r.connection_id == connId && r.voter_id == voterId) with
  | none => .error .notFound
  | some vr =>
    let db1 :=
      match findConn db connId with
      | some c =>
        updateUser db c.from_user_id (fun u =>
          { u with trustworthiness := clampTrust (u.trustworthiness - (1/100) * vr.vote) })
      | none => db
    .ok { db1 with votes := db1.votes.eraseP (fun r =>
      r.connection_id == connId && r.voter_id == voterId) }

/-- The `power` expression of `list_my_connections`:
`EXP(-0.000633 * EXTRACT(EPOCH FROM (NOW() - c.created_at)) / 86400.0)
 * (1.0 + COALESCE(v.vote_sum, 0) * 0.1)
 * (u_from.trustworthiness + u_to.trustworthiness) / 2.0`,
with the elapsed time in seconds and the decay constant `0.000633` as a
literal. -/
noncomputable def power (secondsElapsed voteSum : ℤ) (trustFrom trustTo : ℚ) : ℝ :=
  Real.exp (-(633/1000000) * (secondsElapsed : ℝ) / 86400) *
    (1 + (voteSum : ℝ) * (1/10)) * (((trustFrom : ℝ) + (trustTo : ℝ)) / 2)

/-- Modelled from the spec: the power formula of §4.1 as written there,
`exp(-ln(2) * days_elapsed / 1095) * (1 + 0.1 * vote_sum) *
(trust(A) + trust(B)) / 2`, with `days_elapsed = seconds / 86400`.  Used only
to compare the spec's formula with the code's `power`. -/
noncomputable def powerSpecModel (secondsElapsed voteSum : ℤ)
    (trustFrom trustTo : ℚ) : ℝ :=
  Real.exp (-(Real.log 2) * ((secondsElapsed : ℝ) / 86400) / 1095) *
    (1 + (voteSum : ℝ) * (1/10)) * (((trustFrom : ℝ) + (trustTo : ℝ)) / 2)

/-- A row of the `messages` table (the columns the visibility code touches);
`kind` is the string-valued message kind column. -/
structure MsgRow where
  kind : String
  sender_id : Nat
  receiver_id : Nat
deriving DecidableEq

/-- `get_connected_user_ids` from `posts.py`: the `DISTINCT` other endpoints
of `kind = 'confirm'` rows of the `messages` table touching the user. -/
def get_connected_user_ids (msgs : List MsgRow) (userId : Nat) : List Nat :=
  ((msgs.filter (fun m =>
      m.kind == "confirm" && (m.sender_id == userId || m.receiver_id == userId))).map
    (fun m => if m.sender_id = userId then m.receiver_id else m.sender_id)).dedup

/-- A row of the `posts` table (the columns `can_view_post` touches);
`visibility` is the string-valued visibility column. -/
structure PostRow where
  author_id : Nat
  visibility : String
deriving DecidableEq

/-- `can_view_post` from `posts.py`. -/
def can_view_post (msgs : List MsgRow) (userId : Option Nat) (post : PostRow) :
    Bool :=
  if post.visibility == "public" then true
  else
    match userId with
    | none => false
    | some u =>
      if post.author_id = u then true
      else (get_connected_user_ids msgs u).contains post.author_id

/-- A row of the `facts` table (the columns `can_view_fact` touches). -/
structure FactRow where
  author_id : Nat
  subject_user_id : Option Nat
  subject_page_id : Option Nat
  public_at : Int
  approved_at : Option Int
  vetoed_at : Option Int
deriving DecidableEq

/-- The truthy `fact["subject_user_id"] and fact["subject_user_id"] == viewer_id`
check (user ids are positive, so truthiness is presence). -/
def subjectIs (f : FactRow) (v : Nat) : Bool :=
  match f.subject_user_id with
  | some s => s == v
  | none => false

/-- `can_view_fact` from `facts.py`; `editor p v` stands for the
`is_page_editor(p, v)` query and `msgs` backs `get_connected_user_ids`. -/
def can_view_fact (editor : Nat → Nat → Bool) (msgs : List MsgRow) (now : Int)
    (viewerId : Option Nat) (f : FactRow) : Bool :=
  match f.vetoed_at with
  | some _ =>
    match viewerId with
    | none => false
    | some v =>
      if f.author_id = v then true
      else if subjectIs f v then true
      else
        match f.subject_page_id with
        | some p => editor p v
        | none => false
  | none =>
    let isApproved := f.approved_at.isSome
    let isPastCooldown := f.public_at ≤ now
    let isPublic := isApproved || isPastCooldown
    if ¬ isPublic then
      match viewerId with
      | none => false
      | some v =>
        if f.author_id = v then true
        else if subjectIs f v then true
        else
          match f.subject_page_id with
          | some p => editor p v
          | none => false
    else
      match viewerId with
      | none => false
      | some v =>
        if f.author_id = v then true
        else if subjectIs f v then true
        else if (match f.subject_page_id with
                 | some p => editor p v
                 | none => false) then true
        else (get_connected_user_ids msgs v).contains f.author_id

/-- The confirmed-pair check of the connections router (the shape of
`_can_vote_on_connection`'s subqueries and of `get_connection_status`'s
`is_connected`): some confirmed `connections` row joins the two users, in
either direction. -/
def confirmedPair (conns : List ConnRow) (a b : Nat) : Bool :=
  conns.any (fun r =>
    decide (r.conn_status = .confirmed) &&
      ((r.from_user_id == a && r.to_user_id == b) ||
       (r.from_user_id == b && r.to_user_id == a)))

/-- Modelled from the spec: `can_view_fact` as §4.3 clause 3 words it, with
the public-fact connectivity check "connection-graph-confirmed with the
author" taken to be §4.1's confirmed-pair check over the `connections` table.
Used only to compare the spec's predicate with the code's `can_view_fact`. -/
def canViewFactSpecModel (editor : Nat → Nat → Bool) (conns : List ConnRow)
    (now : Int) (viewerId : Option Nat) (f : FactRow) : Bool :=
  match f.vetoed_at with
  | some _ =>
    match viewerId with
    | none => false
    | some v =>
      if f.author_id = v then true
      else if subjectIs f v then true
      else
        match f.subject_page_id with
        | some p => editor p v
        | none => false
  | none =>
    let isApproved := f.approved_at.isSome
    let isPastCooldown := f.public_at ≤ now
    let isPublic := isApproved || isPastCooldown
    if ¬ isPublic then
      match viewerId with
      | none => false
      | some v =>
        if f.author_id = v then true
        else if subjectIs f v then true
        else
          match f.subject_page_id with
          | some p => editor p v
          | none => false
    else
      match viewerId with
      | none => false
      | some v =>
        if f.author_id = v then true
        else if subjectIs f v then true
        else if (match f.subject_page_id with
                 | some p => editor p v
                 | none => false) then true
        else confirmedPair conns f.author_id v

/-!
Concrete fixtures: small database states used by witnesses, counterexamples
and the code-bug evaluations.
-/

/-- Epoch instant used by the concrete scenarios. -/
def baseNow : Int := 10000000

/-- User A, the claim initiator of the scenarios. -/
def userA : UserRow :=
  { id := 1, handle := "a", karma_points := 15, karma_last_regen := baseNow,
    trustworthiness := 1 }

/-- User B, the claim target of the scenarios. -/
def userB : UserRow :=
  { id := 2, handle := "b", karma_points := 15, karma_last_regen := baseNow,
    trustworthiness := 1 }

/-- User C, the third-party voter of the scenarios. -/
def userC : UserRow :=
  { id := 3, handle := "c", karma_points := 15, karma_last_regen := baseNow,
    trustworthiness := 1 }

/-- A state with users A, B, C and nothing else. -/
def baseDb : Db :=
  { users := [userA, userB, userC], connections := [], claims_log := [],
    votes := [], next_conn_id := 1 }

/-- Extract the new state of a successful `create_connection` call. -/
def unwrapCreate (r : Except ApiError (Db × Nat)) (fallback : Db) : Db :=
  match r with
  | .ok (d, _) => d
  | .error _ => fallback

/-- State after A's first claim to B. -/
def afterClaim1 : Db :=
  unwrapCreate (create_connection baseDb baseNow 1 "b" "colleague one" none) baseDb

/-- State after A's second claim to B, 100 seconds later. -/
def afterClaim2 : Db :=
  unwrapCreate (create_connection afterClaim1 (baseNow + 100) 1 "b" "colleague two" none)
    afterClaim1

/-- State after A's third claim to B, 200 seconds in. -/
def afterClaim3 : Db :=
  unwrapCreate (create_connection afterClaim2 (baseNow + 200) 1 "b" "colleague three" none)
    afterClaim2

/-- State after A withdraws the third claim (connection id 3). -/
def afterWithdraw : Db :=
  match delete_connection afterClaim3 1 3 with
  | .ok d => d
  | .error _ => afterClaim3

/-- A state whose claim log already holds 100 of A's claims inside the
trailing day (none of them to B). -/
def heavyLogDb : Db :=
  { baseDb with claims_log := List.replicate 100 ⟨1, 50, baseNow⟩ }

/-- Number of `connections` rows joining the unordered pair of users. -/
def pairRowCount (db : Db) (a b : Nat) : Nat :=
  (db.connections.filter (fun r =>
    (r.from_user_id == a && r.to_user_id == b) ||
      (r.from_user_id == b && r.to_user_id == a))).length

/-- A single pending connection row, requested by A (user 1) to B (user 2). -/
def pendingRow : ConnRow :=
  { id := 1, from_user_id := 1, to_user_id := 2, subject := "worked together",
    body := none, conn_status := .pending, created_at := baseNow,
    confirmed_at := none, ignored_at := none }

/-- A state holding exactly the pending A→B row. -/
def pendingConnDb : Db :=
  { baseDb with connections := [pendingRow], next_conn_id := 2 }

/-- The A→B row in status `ignored`. -/
def ignoredRow : ConnRow :=
  { pendingRow with conn_status := .ignored, ignored_at := some baseNow }

/-- The A→B row in status `confirmed`. -/
def confirmedRow : ConnRow :=
  { pendingRow with conn_status := .confirmed, confirmed_at := some baseNow }

/-- A state holding the A→B row in status `ignored`. -/
def ignoredConnDb : Db :=
  { baseDb with connections := [ignoredRow], next_conn_id := 2 }

/-- A state holding the A→B row in status `confirmed`. -/
def confirmedConnDb : Db :=
  { baseDb with connections := [confirmedRow], next_conn_id := 2 }

/-- Voting fixture parameterised by A's trustworthiness: the confirmed A→B
row (id 1) plus confirmed rows joining the voter C to both A (id 2) and
B (id 3). -/
def voteDb (t : ℚ) : Db :=
  { users := [{ userA with trustworthiness := t }, userB, userC]
    connections :=
      [confirmedRow,
       { id := 2, from_user_id := 3, to_user_id := 1, subject := "knows a",
         body := none, conn_status := .confirmed, created_at := baseNow,
         confirmed_at := some baseNow, ignored_at := none },
       { id := 3, from_user_id := 3, to_user_id := 2, subject := "knows b",
         body := none, conn_status := .confirmed, created_at := baseNow,
         confirmed_at := some baseNow, ignored_at := none }]
    claims_log := []
    votes := []
    next_conn_id := 4 }

/-- A's trustworthiness after C casts vote `v` on connection 1 once. -/
def trustAfterOneVote (t : ℚ) (v : Int) : Option ℚ :=
  match vote_on_connection (voteDb t) 3 1 v with
  | .ok d1 => trustOf d1 1
  | .error _ => none

/-- A's trustworthiness after C casts the same vote `v` on connection 1
twice in a row. -/
def trustAfterTwoSameVotes (t : ℚ) (v : Int) : Option ℚ :=
  match vote_on_connection (voteDb t) 3 1 v with
  | .ok d1 =>
    match vote_on_connection d1 3 1 v with
    | .ok d2 => trustOf d2 1
    | .error _ => none
  | .error _ => none

/-- A's trustworthiness after C casts vote `v` on connection 1 and then
removes it. -/
def trustAfterVoteRemove (t : ℚ) (v : Int) : Option ℚ :=
  match vote_on_connection (voteDb t) 3 1 v with
  | .ok d1 =>
    match remove_vote d1 3 1 with
    | .ok d2 => trustOf d2 1
    | .error _ => none
  | .error _ => none

/-- The claim's "effective karma", computed lazily at claim time:
`min(15, karma + floor(days_since_last_regen / 30))`, with the elapsed time
taken in seconds and one month being the SQL literal 2592000 seconds. -/
def effectiveKarma (now : Int) (u : UserRow) : Int :=
  min 15 (u.karma_points + (now - u.karma_last_regen).fdiv monthSeconds)

/-- A user whose karma is exhausted (0 points, regeneration up to date). -/
def lowKarmaUser : UserRow :=
  { id := 1, handle := "a", karma_points := 0, karma_last_regen := baseNow,
    trustworthiness := 1 }

/-- `baseDb` with A's karma exhausted. -/
def lowKarmaDb : Db :=
  { baseDb with users := [lowKarmaUser, userB, userC] }

/-- An `is_page_editor` oracle that always answers no. -/
def editor0 : Nat → Nat → Bool := fun _ _ => false

/-- One `confirm` message joining user 4 and user 1 (user 4 confirmed a
message-model connection request from user 1). -/
def msgs1 : List MsgRow :=
  [{ kind := "confirm", sender_id := 4, receiver_id := 1 }]

/-- A fact by user 1 about user 2 whose cooldown has not elapsed. -/
def factCooldown : FactRow :=
  { author_id := 1, subject_user_id := some 2, subject_page_id := none,
    public_at := baseNow + 1000, approved_at := none, vetoed_at := none }

/-- A fact by user 1 about user 2 whose cooldown has elapsed. -/
def factPublic : FactRow :=
  { author_id := 1, subject_user_id := some 2, subject_page_id := none,
    public_at := baseNow - 1000, approved_at := none, vetoed_at := none }

/-- A public fact by user 1 about user 3, used to compare the two
connection models. -/
def factAboutC : FactRow :=
  { author_id := 1, subject_user_id := some 3, subject_page_id := none,
    public_at := baseNow - 10, approved_at := none, vetoed_at := none }

/-- A `connections`-visibility post by user 1. -/
def postConn : PostRow :=
  { author_id := 1, visibility := "connections" }

/-!
Theorems.
-/

/-- Claim C5: claim creation is rate limited over a sliding 24-hour window of
the claim log: A's first three claims to B succeed, a fourth inside the window
fails with `RateLimited` (as does any claim once 100 claims sit in the trailing
day), a claim issued after the window has slid past the earlier ones succeeds,
and withdrawing one of the three removes one matching log row so a new claim
to B succeeds again. -/
theorem claim_rate_limit_scenario :
    (create_connection baseDb baseNow 1 "b" "colleague one" none).isOk = true
    ∧ (create_connection afterClaim1 (baseNow + 100) 1 "b" "colleague two" none).isOk = true
    ∧ (create_connection afterClaim2 (baseNow + 200) 1 "b" "colleague three" none).isOk = true
    ∧ pairClaimCount afterClaim3 (baseNow + 300) 1 2 = 3
    ∧ create_connection afterClaim3 (baseNow + 300) 1 "b" "colleague four" none
        = .error .rateLimited
    ∧ (create_connection afterClaim3 (baseNow + 86601) 1 "b" "next day" none).isOk = true
    ∧ pairClaimCount heavyLogDb (baseNow + 100) 1 2 = 0
    ∧ globalClaimCount heavyLogDb (baseNow + 100) 1 = 100
    ∧ create_connection heavyLogDb (baseNow + 100) 1 "b" "one more" none
        = .error .rateLimited
    ∧ (delete_connection afterClaim3 1 3).isOk = true
    ∧ pairClaimCount afterWithdraw (baseNow + 400) 1 2 = 2
    ∧ (create_connection afterWithdraw (baseNow + 400) 1 "b" "colleague five" none).isOk
        = true :=
  ⟨by decide, by decide, by decide, by decide, by rfl, by decide, by decide,
   by decide, by rfl, by decide, by decide, by decide⟩

/-- Unfolding of one vote on the voting fixture: the claimant's
trustworthiness becomes the clamped sum. -/
lemma trustAfterOneVote_unfold (t : ℚ) (v : ℤ) :
    trustAfterOneVote t v = some (clampTrust (t + 1/100 * v)) := rfl

/-- Unfolding of two same-value votes on the voting fixture: the clamped
delta is applied twice. -/
lemma trustAfterTwoSameVotes_unfold (t : ℚ) (v : ℤ) :
    trustAfterTwoSameVotes t v
      = some (clampTrust (clampTrust (t + 1/100 * v) + 1/100 * v)) := rfl

/-- Claim C3: voting the same value twice is NOT idempotent on the claim
initiator's trustworthiness: with initiator trust 1.0, one +1 vote moves it
to 1.01, and a second identical vote by the same voter moves it again to
1.02 — the `0.01 * vote` delta is applied on every upsert, contradicting the
claimed idempotence of the second same-value application. -/
theorem vote_same_value_twice_double_applies_delta :
    trustAfterOneVote 1 1 = some (101/100)
    ∧ trustAfterTwoSameVotes 1 1 = some (51/50)
    ∧ (51/50 : ℚ) ≠ 101/100 := by
  refine ⟨?_, ?_, by norm_num⟩
  · rw [trustAfterOneVote_unfold]
    norm_num [clampTrust, ratLeast, ratGreatest]
  · rw [trustAfterTwoSameVotes_unfold]
    norm_num [clampTrust, ratLeast, ratGreatest]

/-- Claim C8, counterexample: on a confirmed row requested by user 1 towards
user 2, a delete attempted by user 2 — a party of the connection, but not its
creator — fails with `Forbidden`, so it is not the case that either party may
delete a confirmed row. -/
theorem disconnect_by_target_forbidden :
    findConn confirmedConnDb 1 = some confirmedRow
    ∧ confirmedRow.conn_status = .confirmed
    ∧ confirmedRow.to_user_id = 2
    ∧ delete_connection confirmedConnDb 2 1 = .error .forbidden :=
  ⟨rfl, rfl, rfl, rfl⟩

/-- Claim C8, amended: only the creator (`from_user_id`) of a connection row —
confirmed or not — may delete it; a delete by anyone else, including the other
party of a confirmed row, fails with `Forbidden`.  The creator's delete removes
the row outright (no row for the id remains and no surviving row is new), so
the pair reverts to the no-connection state rather than to `ignored`. -/
theorem delete_connection_creator_only (db : Db) (userId connId : Nat)
    (c : ConnRow) (hc : findConn db connId = some c) :
    (c.from_user_id ≠ userId → delete_connection db userId connId = .error .forbidden)
    ∧ (c.from_user_id = userId →
        ∃ db2, delete_connection db userId connId = .ok db2
          ∧ findConn db2 connId = none
          ∧ ∀ r ∈ db2.connections, r ∈ db.connections ∧ r.id ≠ connId) := by
  constructor
  · intro hne
    simp [delete_connection, hc, hne]
  · intro heq
    have hd : delete_connection db userId connId = .ok
        { db with connections := db.connections.filter (fun r => r.id != connId),
                  claims_log := removeLatestClaimLog db.claims_log userId c.to_user_id } := by
      simp [delete_connection, hc, heq]
    refine ⟨_, hd, ?_, ?_⟩
    · simp only [findConn, List.find?_eq_none, List.mem_filter]
      intro a ha
      simpa using ha.2
    · intro r hr
      simp only [List.mem_filter] at hr
      exact ⟨hr.1, by simpa using hr.2⟩

/-- Witness for `delete_connection_creator_only` at the confirmed-row fixture:
user 2's delete is `Forbidden`, user 1's delete removes the row. -/
theorem delete_connection_creator_only_witness :
    (delete_connection confirmedConnDb 2 1 = .error .forbidden)
    ∧ (∃ db2, delete_connection confirmedConnDb 1 1 = .ok db2
          ∧ findConn db2 1 = none
          ∧ ∀ r ∈ db2.connections, r ∈ confirmedConnDb.connections ∧ r.id ≠ 1) :=
  ⟨(delete_connection_creator_only confirmedConnDb 2 1 confirmedRow rfl).1 (by decide),
   (delete_connection_creator_only confirmedConnDb 1 1 confirmedRow rfl).2 rfl⟩

/-- Claim C1, counterexample: two successive successful claims from user 1 to
user 2 leave two `connections` rows for the unordered pair of users 1, 2 — the
second claim inserts a second row instead of transitioning or rejecting. -/
theorem second_claim_inserts_second_pair_row :
    (create_connection baseDb baseNow 1 "b" "colleague one" none).isOk = true
    ∧ pairRowCount afterClaim1 1 2 = 1
    ∧ (create_connection afterClaim1 (baseNow + 100) 1 "b" "colleague two" none).isOk = true
    ∧ pairRowCount afterClaim2 1 2 = 2 := by
  exact ⟨by decide, by decide, by decide, by decide⟩

/-- `check_karma` only rewrites the `users` table: connections, claim log and
the id counter come through unchanged. -/
lemma check_karma_connections (db : Db) (now : Int) (uid : Nat) (db1 : Db)
    (h : check_karma db now uid = .ok db1) :
    db1.connections = db.connections
    ∧ db1.claims_log = db.claims_log
    ∧ db1.next_conn_id = db.next_conn_id := by
  unfold check_karma at h
  dsimp only at h
  split at h
  · exact absurd h (by simp)
  · split at h
    · split at h
      · exact absurd h (by simp)
      · injection h with h2
        subst h2
        exact ⟨rfl, rfl, rfl⟩
    · injection h with h2
      subst h2
      exact ⟨rfl, rfl, rfl⟩

/-- Claim C1, amended: `create_connection` performs no per-pair uniqueness
check — every successful claim appends exactly one fresh `pending` row to the
`connections` store, whatever rows (for this or any pair) already exist, so a
pair accumulates one row per undeleted successful claim. -/
theorem create_connection_appends_one_row (db : Db) (now : Int) (fromId : Nat)
    (toHandle subject : String) (body : Option String) (db2 : Db) (cid : Nat)
    (h : create_connection db now fromId toHandle subject body = .ok (db2, cid)) :
    ∃ row : ConnRow, db2.connections = db.connections ++ [row]
      ∧ row.conn_status = .pending ∧ row.from_user_id = fromId
      ∧ row.created_at = now ∧ row.id = cid := by
  unfold create_connection at h
  dsimp only at h
  split at h
  · exact absurd h (by simp)
  · rename_i db1 hk
    split at h
    · exact absurd h (by simp)
    · rename_i target htarget
      split at h
      · exact absurd h (by simp)
      · split at h
        · exact absurd h (by simp)
        · injection h with h2
          injection h2 with hdb hcid
          subst hdb
          refine ⟨{ id := (log_claim_attempt db1 now fromId target.id).next_conn_id,
                    from_user_id := fromId, to_user_id := target.id,
                    subject := subject, body := body, conn_status := .pending,
                    created_at := now, confirmed_at := none, ignored_at := none },
                  ?_, rfl, rfl, rfl, hcid⟩
          simp [log_claim_attempt, (check_karma_connections db now fromId db1 hk).1]

/-- Witness for `create_connection_appends_one_row`: the first claim of the
fixture appends one pending row to the empty store. -/
theorem create_connection_appends_one_row_witness :
    ∃ row : ConnRow, afterClaim1.connections = baseDb.connections ++ [row]
      ∧ row.conn_status = .pending ∧ row.from_user_id = 1
      ∧ row.created_at = baseNow ∧ row.id = 1 :=
  create_connection_appends_one_row baseDb baseNow 1 "b" "colleague one" none
    afterClaim1 1 rfl

/-- Claim C6, counterexample: in a state whose only row for the pair is
`ignored` (so no pending row for the pair exists anywhere), a confirm by the
row's target succeeds rather than failing with `NotFound` — ignored claims
support late confirmation. -/
theorem confirm_without_pending_row_succeeds :
    ignoredConnDb.connections.all (fun r => decide (r.conn_status ≠ .pending)) = true
    ∧ (confirm_connection ignoredConnDb (baseNow + 5) 2 1).isOk = true := by
  exact ⟨by decide, by decide⟩

/-- `find?` by row id over an id-preserving in-place update of the
`connections` list finds the updated image of what it found before. -/
lemma findConn_update (l : List ConnRow) (k : Nat) (g : ConnRow → ConnRow)
    (hg : ∀ r, (g r).id = r.id) :
    (l.map fun r => if r.id = k then g r else r).find? (fun r => r.id == k)
      = (l.find? (fun r => r.id == k)).map (fun r => if r.id = k then g r else r) := by
  induction l with
  | nil => rfl
  | cons r l ih =>
    simp only [List.map_cons, List.find?_cons]
    by_cases hr : r.id = k
    · simp [hr, hg]
    · have hb : (r.id == k) = false := by simp [hr]
      simp [hb, hr, ih]

/-- Claim C6, amended: confirm fails with `NotFound` exactly when no row with
the given id exists (whatever its status); on an existing row it fails with
`Forbidden` for any caller other than the row's target (in particular for the
original requester), fails with `Conflict` when the row is already confirmed,
and succeeds for the target on a `pending` or `ignored` row, rewriting it to
`confirmed` with `confirmed_at` stamped and `ignored_at` cleared. -/
theorem confirm_connection_characterization (db : Db) (now : Int)
    (userId connId : Nat) :
    (findConn db connId = none →
      confirm_connection db now userId connId = .error .notFound)
    ∧ (∀ c, findConn db connId = some c → c.to_user_id ≠ userId →
        confirm_connection db now userId connId = .error .forbidden)
    ∧ (∀ c, findConn db connId = some c → c.to_user_id = userId →
        c.conn_status = .confirmed →
        confirm_connection db now userId connId = .error .badRequest)
    ∧ (∀ c, findConn db connId = some c → c.to_user_id = userId →
        c.conn_status ≠ .confirmed →
        ∃ db2, confirm_connection db now userId connId = .ok db2
          ∧ findConn db2 connId = some (confirmUpdate now c)) := by
  refine ⟨?_, ?_, ?_, ?_⟩
  · intro hn
    simp [confirm_connection, hn]
  · intro c hc hne
    simp [confirm_connection, hc, hne]
  · intro c hc heq hst
    simp [confirm_connection, hc, heq, hst]
  · intro c hc heq hst
    have hid : c.id = connId := by
      have := List.find?_some hc
      simpa using this
    have hd : confirm_connection db now userId connId = .ok
        { db with connections := db.connections.map (fun r =>
            if r.id = connId then confirmUpdate now r else r) } := by
      simp [confirm_connection, hc, heq, hst]
    refine ⟨_, hd, ?_⟩
    show (db.connections.map _).find? _ = _
    rw [findConn_update db.connections connId (confirmUpdate now) (fun r => rfl)]
    rw [show db.connections.find? (fun r => r.id == connId) = some c from hc]
    simp [hid]

/-- Witness for `confirm_connection_characterization` on the fixtures: a
missing id is `NotFound`, the requester's confirm is `Forbidden`, confirming a
confirmed row is `Conflict` (400), and the target's confirm succeeds on both a
pending and an ignored row. -/
theorem confirm_connection_characterization_witness :
    (confirm_connection baseDb baseNow 2 9 = .error .notFound)
    ∧ (confirm_connection pendingConnDb (baseNow + 5) 1 1 = .error .forbidden)
    ∧ (confirm_connection confirmedConnDb (baseNow + 5) 2 1 = .error .badRequest)
    ∧ (∃ db2, confirm_connection pendingConnDb (baseNow + 5) 2 1 = .ok db2
        ∧ findConn db2 1 = some (confirmUpdate (baseNow + 5) pendingRow))
    ∧ (∃ db2, confirm_connection ignoredConnDb (baseNow + 5) 2 1 = .ok db2
        ∧ findConn db2 1 = some (confirmUpdate (baseNow + 5) ignoredRow)) :=
  ⟨(confirm_connection_characterization baseDb baseNow 2 9).1 rfl,
   (confirm_connection_characterization pendingConnDb (baseNow + 5) 1 1).2.1
     pendingRow rfl (by decide),
   (confirm_connection_characterization confirmedConnDb (baseNow + 5) 2 1).2.2.1
     confirmedRow rfl rfl (by decide),
   (confirm_connection_characterization pendingConnDb (baseNow + 5) 2 1).2.2.2
     pendingRow rfl rfl (by decide),
   (confirm_connection_characterization ignoredConnDb (baseNow + 5) 2 1).2.2.2
     ignoredRow rfl rfl (by decide)⟩

/-- `find?` by user id over an id-preserving in-place update of the `users`
list finds the updated image of what it found before. -/
lemma findUser_update (l : List UserRow) (k : Nat) (g : UserRow → UserRow)
    (hg : ∀ u, (g u).id = u.id) :
    (l.map fun u => if u.id = k then g u else u).find? (fun u => u.id == k)
      = (l.find? (fun u => u.id == k)).map (fun u => if u.id = k then g u else u) := by
  induction l with
  | nil => rfl
  | cons u l ih =>
    simp only [List.map_cons, List.find?_cons]
    by_cases hu : u.id = k
    · simp [hu, hg]
    · have hb : (u.id == k) = false := by simp [hu]
      simp [hb, hu, ih]

/-- Claim C4: a connection claim from a user whose effective karma —
`min(15, karma + floor(days_since_last_regen/30))`, regeneration applied
lazily at claim time — is at most 0 always fails with `Forbidden`, whatever
the target, payload or rate-limit state. -/
theorem low_karma_claim_forbidden (db : Db) (now : Int) (fromId : Nat)
    (toHandle subject : String) (body : Option String) (u : UserRow)
    (hu : findUser db fromId = some u)
    (hreg : u.karma_last_regen ≤ now)
    (heff : effectiveKarma now u ≤ 0) :
    create_connection db now fromId toHandle subject body = .error .forbidden := by
  have hid : u.id = fromId := by simpa using List.find?_some hu
  have hkarma : (regenerateKarma now u).karma_points ≤ 0 := by
    unfold regenerateKarma
    split
    · simpa [effectiveKarma] using heff
    · rename_i hcond
      have hdiff0 : 0 ≤ now - u.karma_last_regen := by omega
      have hfd0 : 0 ≤ (now - u.karma_last_regen).fdiv monthSeconds :=
        Int.fdiv_nonneg hdiff0 (by norm_num [monthSeconds])
      have hsum : u.karma_points + (now - u.karma_last_regen).fdiv monthSeconds ≤ 0 := by
        rcases min_le_iff.mp heff with h | h
        · omega
        · exact h
      omega
  have h1 : findUser (updateUser db fromId (regenerateKarma now)) fromId
      = some (regenerateKarma now u) := by
    unfold updateUser findUser
    show (db.users.map _).find? _ = _
    rw [findUser_update db.users fromId (regenerateKarma now)
      (fun v => by unfold regenerateKarma; split <;> rfl)]
    rw [show db.users.find? (fun v => v.id == fromId) = some u from hu]
    simp [hid]
  have hk : check_karma db now fromId = .error .forbidden := by
    simp [check_karma, hu, h1, hkarma]
  unfold create_connection
  rw [hk]

/-- Witness for `low_karma_claim_forbidden`: user 1 of the low-karma fixture
(0 karma points, regeneration up to date) is refused with `Forbidden`. -/
theorem low_karma_claim_forbidden_witness :
    create_connection lowKarmaDb baseNow 1 "b" "hello there" none
      = .error .forbidden :=
  low_karma_claim_forbidden lowKarmaDb baseNow 1 "b" "hello there" none
    lowKarmaUser rfl (by decide) (by decide)

/-- Claim C9: a fact whose `public_at` lies in the future, with no
`approved_at` and no `vetoed_at`, is invisible to any viewer who is neither
author, subject nor subject-page editor, yet visible to its author; and
vetoing an already-public fact hides it from a connected viewer who could see
it before, while the author and the subject still see it. -/
theorem fact_cooldown_and_veto_visibility
    (editor : Nat → Nat → Bool) (msgs : List MsgRow) (now : Int)
    (f g : FactRow) (v w : Nat) (ts : Int)
    (hf1 : f.vetoed_at = none) (hf2 : f.approved_at = none)
    (hf3 : now < f.public_at)
    (hf4 : f.author_id ≠ v) (hf5 : subjectIs f v = false)
    (hf6 : ∀ p, f.subject_page_id = some p → editor p v = false)
    (hg1 : g.vetoed_at = none) (hg3 : g.public_at ≤ now)
    (hg4 : g.author_id ≠ w) (hg5 : subjectIs g w = false)
    (hg6 : ∀ p, g.subject_page_id = some p → editor p w = false)
    (hg7 : (get_connected_user_ids msgs w).contains g.author_id = true) :
    can_view_fact editor msgs now (some f.author_id) f = true
    ∧ can_view_fact editor msgs now (some v) f = false
    ∧ can_view_fact editor msgs now (some w) g = true
    ∧ can_view_fact editor msgs now (some w) { g with vetoed_at := some ts } = false
    ∧ can_view_fact editor msgs now (some g.author_id) { g with vetoed_at := some ts } = true
    ∧ ∀ s, g.subject_user_id = some s →
        can_view_fact editor msgs now (some s) { g with vetoed_at := some ts } = true := by
  have hf3' : (decide (f.public_at ≤ now)) = false := by
    simp [not_le.mpr hf3]
  refine ⟨?_, ?_, ?_, ?_, ?_, ?_⟩
  · simp [can_view_fact, hf1, hf2, hf3']
  · cases hfp : f.subject_page_id with
    | none => simp [can_view_fact, hf1, hf2, hf3', hf4, hf5, hfp, Ne.symm hf4]
    | some p => simp [can_view_fact, hf1, hf2, hf3', hf4, hf5, hfp, hf6 p hfp, Ne.symm hf4]
  · have hg7m : g.author_id ∈ get_connected_user_ids msgs w := by simpa using hg7
    cases hgp : g.subject_page_id with
    | none => simp [can_view_fact, hg1, hg3, hg4, hg5, hgp, hg7m, Ne.symm hg4]
    | some p => simp [can_view_fact, hg1, hg3, hg4, hg5, hgp, hg6 p hgp, hg7m, Ne.symm hg4]
  · cases hgp : g.subject_page_id with
    | none =>
      simp [can_view_fact, hg4, hgp, Ne.symm hg4]
      exact hg5
    | some p =>
      simp [can_view_fact, hg4, hgp, hg6 p hgp, Ne.symm hg4]
      exact hg5
  · simp [can_view_fact]
  · intro s hs
    simp [can_view_fact, subjectIs, hs]

/-- Witness for `fact_cooldown_and_veto_visibility` on the fixtures: the
cooling-down fact is visible to author 1 and hidden from stranger 7; the
public fact is visible to connected viewer 4 until vetoed, after which author
1 and subject 2 still see it. -/
theorem fact_cooldown_and_veto_visibility_witness :
    can_view_fact editor0 msgs1 baseNow (some 1) factCooldown = true
    ∧ can_view_fact editor0 msgs1 baseNow (some 7) factCooldown = false
    ∧ can_view_fact editor0 msgs1 baseNow (some 4) factPublic = true
    ∧ can_view_fact editor0 msgs1 baseNow (some 4)
        { factPublic with vetoed_at := some (baseNow + 50) } = false
    ∧ can_view_fact editor0 msgs1 baseNow (some 1)
        { factPublic with vetoed_at := some (baseNow + 50) } = true
    ∧ can_view_fact editor0 msgs1 baseNow (some 2)
        { factPublic with vetoed_at := some (baseNow + 50) } = true := by
  have h := fact_cooldown_and_veto_visibility editor0 msgs1 baseNow
    factCooldown factPublic 7 4 (baseNow + 50)
    rfl rfl (by decide) (by decide) (by decide) (fun p hp => nomatch hp)
    rfl (by decide) (by decide) (by decide) (fun p hp => nomatch hp) (by decide)
  exact ⟨h.1, h.2.1, h.2.2.1, h.2.2.2.1, h.2.2.2.2.1, h.2.2.2.2.2 2 rfl⟩

/-- Claim C2, counterexample: users 1 and 2 hold a confirmed `connections`
row (the relation maintained by `confirm_connection`), yet with no `confirm`
message in the messages store the fact-visibility predicate treats viewer 2 as
NOT connected to author 1 and hides the public fact, while the predicate the
claim describes (same branches, connectivity per the confirmed-pair check over
the `connections` table) shows it. -/
theorem visibility_ignores_connections_table :
    confirmedPair confirmedConnDb.connections 1 2 = true
    ∧ can_view_fact editor0 [] baseNow (some 2) factAboutC = false
    ∧ canViewFactSpecModel editor0 confirmedConnDb.connections baseNow (some 2)
        factAboutC = true := by
  exact ⟨by decide, by decide, by decide⟩

/-- Claim C2, amended: the "connected to the author" relation used by both
the fact and the post visibility predicates is the message-encoded model, not
the `connections` table: for a public fact (or a `connections`-visibility
post) and a viewer who is neither author, subject nor page editor, visibility
equals membership of the author in `get_connected_user_ids`, and that
membership holds exactly when a `kind = 'confirm'` row of the `messages`
store joins viewer and author in either direction. -/
theorem visibility_connected_iff_confirm_message
    (msgs : List MsgRow) (v a : Nat) (hva : v ≠ a)
    (editor : Nat → Nat → Bool) (now : Int) (f : FactRow) (p : PostRow)
    (hf1 : f.author_id = a) (hf2 : f.vetoed_at = none) (hf3 : f.public_at ≤ now)
    (hf4 : subjectIs f v = false)
    (hf5 : ∀ q, f.subject_page_id = some q → editor q v = false)
    (hp1 : p.author_id = a) (hp2 : p.visibility = "connections") :
    (can_view_fact editor msgs now (some v) f
      = (get_connected_user_ids msgs v).contains a)
    ∧ (can_view_post msgs (some v) p
      = (get_connected_user_ids msgs v).contains a)
    ∧ ((get_connected_user_ids msgs v).contains a = true ↔
        ∃ m, m ∈ msgs ∧ m.kind = "confirm" ∧
          ((m.sender_id = v ∧ m.receiver_id = a)
            ∨ (m.sender_id = a ∧ m.receiver_id = v))) := by
  refine ⟨?_, ?_, ?_⟩
  · subst hf1
    cases hfp : f.subject_page_id with
    | none => simp [can_view_fact, hf2, hf3, Ne.symm hva, hf4, hfp]
    | some q => simp [can_view_fact, hf2, hf3, Ne.symm hva, hf4, hfp, hf5 q hfp]
  · subst hp1
    have hpub : (p.visibility == "public") = false := by
      simp [hp2]
    simp [can_view_post, hpub, Ne.symm hva]
  · rw [List.elem_iff]
    simp only [get_connected_user_ids, List.mem_dedup, List.mem_map,
      List.mem_filter]
    constructor
    · rintro ⟨m, ⟨hm, hq⟩, hh⟩
      simp only [Bool.and_eq_true, Bool.or_eq_true, beq_iff_eq] at hq
      refine ⟨m, hm, hq.1, ?_⟩
      by_cases hs : m.sender_id = v
      · left
        refine ⟨hs, ?_⟩
        rw [if_pos hs] at hh
        exact hh
      · right
        rw [if_neg hs] at hh
        rcases hq.2 with h1 | h2
        · exact absurd h1 hs
        · exact ⟨hh, h2⟩
    · rintro ⟨m, hm, hk, hor⟩
      rcases hor with ⟨h1, h2⟩ | ⟨h1, h2⟩
      · refine ⟨m, ⟨hm, ?_⟩, ?_⟩
        · simp [hk, h1]
        · rw [if_pos h1]
          exact h2
      · refine ⟨m, ⟨hm, ?_⟩, ?_⟩
        · simp [hk, h2]
        · have hs : m.sender_id ≠ v := by
            rw [h1]
            exact fun hx => hva hx.symm
          rw [if_neg hs]
          exact h1

/-- Witness for `visibility_connected_iff_confirm_message` at the fixtures:
with the single confirm message joining users 4 and 1, viewer 4's access to
user 1's public fact and `connections` post reduces to the messages-model
relation. -/
theorem visibility_connected_iff_confirm_message_witness :
    (can_view_fact editor0 msgs1 baseNow (some 4) factPublic
      = (get_connected_user_ids msgs1 4).contains 1)
    ∧ (can_view_post msgs1 (some 4) postConn
      = (get_connected_user_ids msgs1 4).contains 1)
    ∧ ((get_connected_user_ids msgs1 4).contains 1 = true ↔
        ∃ m, m ∈ msgs1 ∧ m.kind = "confirm" ∧
          ((m.sender_id = 4 ∧ m.receiver_id = 1)
            ∨ (m.sender_id = 1 ∧ m.receiver_id = 4))) :=
  visibility_connected_iff_confirm_message msgs1 4 1 (by decide) editor0 baseNow
    factPublic postConn rfl rfl (by decide) (by decide) (fun q hq => nomatch hq)
    rfl rfl

/-- Unfolding of vote-then-remove on the voting fixture: both clamps are
applied independently. -/
lemma trustAfterVoteRemove_unfold (t : ℚ) (v : ℤ) :
    trustAfterVoteRemove t v
      = some (clampTrust (clampTrust (t + 1/100 * v) - 1/100 * v)) := rfl

/-- `clampTrust` is the identity on the trust range. -/
lemma clampTrust_of_mem (x : ℚ) (hl : 1/10 ≤ x) (hr : x ≤ 2) :
    clampTrust x = x := by
  unfold clampTrust ratLeast ratGreatest
  split_ifs <;> linarith

/-- `clampTrust` caps values above 2. -/
lemma clampTrust_high (x : ℚ) (h : 2 < x) : clampTrust x = 2 := by
  unfold clampTrust ratLeast ratGreatest
  split_ifs <;> linarith

/-- `clampTrust` floors values below 0.1. -/
lemma clampTrust_low (x : ℚ) (h : x < 1/10) : clampTrust x = 1/10 := by
  unfold clampTrust ratLeast ratGreatest
  split_ifs <;> linarith

/-- Claim C10: for a trust value `t` in `[0.1, 2]` and a vote `v` of +1 or -1
(0.1 written `mkRat 1 10` in the range hypotheses), applying the vote and
then removing it restores `t` exactly when `t + 0.01·v` stays inside the
clamp range; when the cap was hit the net result is strictly below the prior
value, when the floor was hit strictly above; in particular at `t = 2` a
`+1` vote then removal lands on `1.99` and at `t = 0.1` a `-1` vote then
removal lands on `0.11`. -/
theorem vote_then_remove_roundtrip (t : ℚ) (v : ℤ)
    (hv : v = 1 ∨ v = -1) (h1 : mkRat 1 10 ≤ t) (h2 : t ≤ 2) :
    (trustAfterVoteRemove t v = some t ↔
      (1/10 ≤ t + 1/100 * v ∧ t + 1/100 * v ≤ 2))
    ∧ (2 < t + 1/100 * v → ∃ r, trustAfterVoteRemove t v = some r ∧ r < t)
    ∧ (t + 1/100 * v < 1/10 → ∃ r, trustAfterVoteRemove t v = some r ∧ t < r)
    ∧ (t = 2 → v = 1 → trustAfterVoteRemove t v = some (199/100))
    ∧ (t = 1/10 → v = -1 → trustAfterVoteRemove t v = some (11/100)) := by
  have h1' : 1/10 ≤ t := by
    rw [Rat.mkRat_eq_div] at h1
    push_cast at h1
    linarith
  rw [trustAfterVoteRemove_unfold]
  rcases hv with rfl | rfl
  · simp only [Int.cast_one, mul_one]
    rcases le_or_lt (t + 1/100) 2 with hle | hgt
    · have e1 : clampTrust (t + 1/100) = t + 1/100 :=
        clampTrust_of_mem _ (by linarith) hle
      have e2 : clampTrust (clampTrust (t + 1/100) - 1/100) = t := by
        rw [e1, show t + 1/100 - 1/100 = t by ring]
        exact clampTrust_of_mem t h1' h2
      rw [e2]
      refine ⟨iff_of_true rfl ⟨by linarith, hle⟩, ?_, ?_, ?_, ?_⟩
      · intro hgt2
        exact absurd hgt2 (not_lt.mpr hle)
      · intro hlow
        exact absurd hlow (by linarith)
      · intro ht _
        exfalso
        rw [ht] at hle
        linarith
      · intro _ hv1
        exact absurd hv1 (by norm_num)
    · have e1 : clampTrust (t + 1/100) = 2 := clampTrust_high _ hgt
      have e2 : clampTrust (clampTrust (t + 1/100) - 1/100) = 199/100 := by
        rw [e1, show (2 : ℚ) - 1/100 = 199/100 by norm_num]
        exact clampTrust_of_mem _ (by norm_num) (by norm_num)
      rw [e2]
      have htgt : 199/100 < t := by linarith
      refine ⟨iff_of_false ?_ ?_, ?_, ?_, ?_, ?_⟩
      · intro h
        have := Option.some.inj h
        linarith
      · rintro ⟨-, hb⟩
        linarith
      · intro _
        exact ⟨199/100, rfl, htgt⟩
      · intro hlow
        exfalso
        linarith
      · intro ht _
        rfl
      · intro _ hv1
        exact absurd hv1 (by norm_num)
  · simp only [Int.cast_neg, Int.cast_one]
    have hrw : t + 1/100 * (-1 : ℚ) = t - 1/100 := by ring
    rw [hrw]
    rcases le_or_lt (1/10) (t - 1/100) with hge | hlt
    · have e1 : clampTrust (t - 1/100) = t - 1/100 :=
        clampTrust_of_mem _ hge (by linarith)
      have e2 : clampTrust (clampTrust (t - 1/100) - 1/100 * (-1 : ℚ)) = t := by
        rw [e1, show t - 1/100 - 1/100 * (-1 : ℚ) = t by ring]
        exact clampTrust_of_mem t h1' h2
      rw [e2]
      refine ⟨iff_of_true rfl ⟨hge, by linarith⟩, ?_, ?_, ?_, ?_⟩
      · intro hgt2
        exfalso
        linarith
      · intro hlow
        exact absurd hlow (not_lt.mpr hge)
      · intro _ hv1
        exact absurd hv1 (by norm_num)
      · intro ht _
        exfalso
        rw [ht] at hge
        norm_num at hge
    · have e1 : clampTrust (t - 1/100) = 1/10 := clampTrust_low _ hlt
      have e2 : clampTrust (clampTrust (t - 1/100) - 1/100 * (-1 : ℚ)) = 11/100 := by
        rw [e1, show (1/10 : ℚ) - 1/100 * (-1 : ℚ) = 11/100 by norm_num]
        exact clampTrust_of_mem _ (by norm_num) (by norm_num)
      rw [e2]
      have htlt : t < 11/100 := by linarith
      refine ⟨iff_of_false ?_ ?_, ?_, ?_, ?_, ?_⟩
      · intro h
        have := Option.some.inj h
        linarith
      · rintro ⟨ha, -⟩
        linarith
      · intro hgt2
        exfalso
        linarith
      · intro _
        exact ⟨11/100, rfl, htlt⟩
      · intro _ hv1
        exact absurd hv1 (by norm_num)
      · intro ht _
        rfl

/-- Witness for `vote_then_remove_roundtrip` at the 2.0 cap: a +1 vote
followed by its removal leaves the initiator at 1.99. -/
theorem vote_then_remove_roundtrip_witness :
    (mkRat 1 10 ≤ (2 : ℚ)) ∧ ((2 : ℚ) ≤ 2)
    ∧ trustAfterVoteRemove 2 1 = some (199/100) :=
  ⟨by decide, by decide,
   (vote_then_remove_roundtrip 2 1 (Or.inl rfl) (by decide) (by decide)).2.2.2.1
     rfl rfl⟩

/-- Claim C7, counterexample: at 1095 days (the claimed half-life), vote sum 0
and both trust values 1, the code's power — whose decay constant is the SQL
literal `0.000633` — differs from the spec's
`exp(-ln(2) * days_elapsed / 1095)` formula: `0.000633 * 1095 = 0.693135` is
not `ln 2 = 0.6931471...`, and `exp` is injective. -/
theorem power_constant_not_spec_formula :
    power (1095 * 86400) 0 1 1 ≠ powerSpecModel (1095 * 86400) 0 1 1 := by
  have h1 : power (1095 * 86400) 0 1 1 = Real.exp (-(693135/1000000)) := by
    unfold power
    push_cast
    ring_nf
  have h2 : powerSpecModel (1095 * 86400) 0 1 1 = Real.exp (-(Real.log 2)) := by
    unfold powerSpecModel
    push_cast
    ring_nf
  rw [h1, h2]
  intro h
  have hx := Real.exp_eq_exp.mp h
  have hlog := Real.log_two_gt_d9
  have : Real.log 2 = 693135/1000000 := by linarith
  linarith

/-- Claim C7, amended: the ranking power is
`exp(-0.000633 * days_elapsed) * (1 + 0.1 * vote_sum) * (trust(A)+trust(B))/2`
with `0.000633` a rounding of `ln(2)/1095`; holding a vote sum of at least
-9 (so the vote factor stays positive) and positive trust values fixed, it is
strictly decreasing in the elapsed time, and 1096 days after creation it lies
strictly below half of its day-0 value. -/
theorem power_decay_monotone_and_half_life (d1 d2 voteSum : ℤ) (tA tB : ℚ)
    (hv : -9 ≤ voteSum) (hA : 0 < tA) (hB : 0 < tB) :
    (d1 < d2 → power d2 voteSum tA tB < power d1 voteSum tA tB)
    ∧ power (1096 * 86400) voteSum tA tB < power 0 voteSum tA tB / 2 := by
  have hvR : (-9 : ℝ) ≤ (voteSum : ℝ) := by exact_mod_cast hv
  have hAR : (0 : ℝ) < (tA : ℝ) := by exact_mod_cast hA
  have hBR : (0 : ℝ) < (tB : ℝ) := by exact_mod_cast hB
  have hC : 0 < (1 + (voteSum : ℝ) * (1/10)) * (((tA : ℝ) + (tB : ℝ)) / 2) := by
    have h1 : (0 : ℝ) < 1 + (voteSum : ℝ) * (1/10) := by linarith
    have h2 : (0 : ℝ) < ((tA : ℝ) + (tB : ℝ)) / 2 := by linarith
    positivity
  constructor
  · intro hd
    have hdR : (d1 : ℝ) < (d2 : ℝ) := by exact_mod_cast hd
    have hexp : Real.exp (-(633/1000000) * (d2 : ℝ) / 86400)
        < Real.exp (-(633/1000000) * (d1 : ℝ) / 86400) := by
      apply Real.exp_lt_exp.mpr
      linarith
    unfold power
    rw [mul_assoc, mul_assoc]
    exact mul_lt_mul_of_pos_right hexp hC
  · have hhalf : Real.exp (-(633/1000000) * ((1096 * 86400 : ℤ) : ℝ) / 86400)
        < 1 / 2 := by
      have hlt : -(633/1000000) * ((1096 * 86400 : ℤ) : ℝ) / 86400
          < -(Real.log 2) := by
        have := Real.log_two_lt_d9
        push_cast
        nlinarith
      calc Real.exp (-(633/1000000) * ((1096 * 86400 : ℤ) : ℝ) / 86400)
          < Real.exp (-(Real.log 2)) := Real.exp_lt_exp.mpr hlt
        _ = 1 / 2 := by
            rw [Real.exp_neg, Real.exp_log] <;> norm_num
    have hzero : power 0 voteSum tA tB
        = (1 + (voteSum : ℝ) * (1/10)) * (((tA : ℝ) + (tB : ℝ)) / 2) := by
      unfold power
      norm_num
    rw [hzero]
    unfold power
    rw [mul_assoc]
    calc Real.exp (-(633/1000000) * ((1096 * 86400 : ℤ) : ℝ) / 86400)
          * ((1 + (voteSum : ℝ) * (1/10)) * (((tA : ℝ) + (tB : ℝ)) / 2))
        < (1/2) * ((1 + (voteSum : ℝ) * (1/10)) * (((tA : ℝ) + (tB : ℝ)) / 2)) :=
          mul_lt_mul_of_pos_right hhalf hC
      _ = (1 + (voteSum : ℝ) * (1/10)) * (((tA : ℝ) + (tB : ℝ)) / 2) / 2 := by ring

/-- Witness for `power_decay_monotone_and_half_life` at vote sum 0 and trust
1 for both parties: one day of decay strictly lowers power, and at 1096 days
power is below half its day-0 value. -/
theorem power_decay_monotone_and_half_life_witness :
    ((-9 : ℤ) ≤ 0) ∧ ((0 : ℚ) < 1) ∧ ((0 : ℤ) < 86400)
    ∧ power 86400 0 1 1 < power 0 0 1 1
    ∧ power (1096 * 86400) 0 1 1 < power 0 0 1 1 / 2 :=
  ⟨by decide, by decide, by decide,
   (power_decay_monotone_and_half_life 0 86400 0 1 1 (by decide) (by decide)
     (by decide)).1 (by decide),
   (power_decay_monotone_and_half_life 0 86400 0 1 1 (by decide) (by decide)
     (by decide)).2⟩

end JustPros
